import Mathlib

/-!
Shallow embedding of the course-recommendation core in `src/app.py`.

The repository holds one source file, a Streamlit app whose non-presentation
logic is four functions: `clean_text` (line 44), `handle_cold_start`
(line 54), `recommend_courses` (line 69) and `load_resources` (line 17).
Dataframes are embedded as lists of records, machine floats as exact
rationals, and the fitted TF-IDF artifact (built offline, not part of the
repository) as an explicit structure.  Library calls made by the source
(jieba segmentation, sklearn cosine similarity, pandas sorting/truncation)
are embedded at the granularity of their documented behaviour, each with a
comment pointing at the library semantics it transcribes.
-/

/-! ## Character classes and text cleaning (app.py line 44, clean_text) -/

/-- Whitespace characters matched by a Python regex backslash-s on the
ASCII plane (space, tab, newline, carriage return, vertical tab, form
feed).  Unicode-only whitespace code points are not modelled; no input
considered below contains them. -/
def isPyWhitespace (c : Char) : Bool :=
  c == ' ' || c == '\t' || c == '\n' || c == '\x0d' ||
    c == '\x0b' || c == '\x0c'

/-- Character class of the regular expression on line 48 of app.py:
the pattern removes every character outside the CJK ideograph range
U+4E00 to U+9FA5, ASCII letters, and whitespace.  This predicate is the
kept allow-list. -/
def keptByCleanRegex (c : Char) : Bool :=
  (decide (0x4E00 ≤ c.toNat) && decide (c.toNat ≤ 0x9FA5)) ||
    c.isAlpha || isPyWhitespace c

/-- The twenty-six lowercase ASCII letters; the restricted character
domain on which the jieba model above is exact and on which the salvaged
idempotence statement for clean_text is proved. -/
def asciiLowercase : List Char :=
  [ 'a', 'b', 'c', 'd', 'e', 'f', 'g', 'h', 'i', 'j', 'k', 'l', 'm',
    'n', 'o', 'p', 'q', 'r', 's', 't', 'u', 'v', 'w', 'x', 'y', 'z' ]

/-- Line 48 of app.py: re.sub removes every character not kept by the
allow-list; removed characters are deleted, not replaced. -/
def stripNonText (s : String) : String :=
  String.mk (s.data.filter keptByCleanRegex)

/-- Line 49 of app.py: Python str.lower, which on the character set kept by
line 48 (ASCII letters and CJK ideographs) maps only ASCII uppercase to
lowercase.  Char.toLower does exactly that on this character set. -/
def pyLower (s : String) : String :=
  String.mk (s.data.map Char.toLower)

/-- Character class of the default block pattern of the jieba tokenizer
(re_han_default): CJK ideographs U+4E00 to U+9FD5, ASCII alphanumerics and
the punctuation characters plus, hash, ampersand, dot, underscore, percent,
hyphen. -/
def isJiebaHan (c : Char) : Bool :=
  (decide (0x4E00 ≤ c.toNat) && decide (c.toNat ≤ 0x9FD5)) ||
    c.isAlphanum ||
    (c == '+' || c == '#' || c == '&' || c == '.' ||
      c == '_' || c == '%' || c == '-')

/-- Helper splitting a character list into maximal runs on which a Boolean
predicate is constant; each run is tagged with the value the predicate takes
on it.  Arguments: the characters still to scan, the tag of the run being
accumulated, and the accumulated run in reverse order. -/
def charRunsAux (p : Char → Bool) : List Char → Bool → List Char →
    List (Bool × List Char)
  | [], b, acc => [(b, acc.reverse)]
  | c :: cs, b, acc =>
    if p c = b then charRunsAux p cs b (c :: acc)
    else (b, acc.reverse) :: charRunsAux p cs (p c) [c]

/-- Maximal constant runs of a Boolean predicate over a character list.
This is how the jieba cut routine partitions a sentence: re_han.split
yields alternating blocks that match the han pattern and blocks that do
not. -/
def charRuns (p : Char → Bool) : List Char → List (Bool × List Char)
  | [] => []
  | c :: cs => charRunsAux p cs (p c) [c]

/-- Model of the dictionary segmentation jieba applies to a block matching
the han pattern.  A block consisting purely of Latin letters falls through
the dictionary DAG of jieba to its English branch and is yielded whole;
this model keeps every block whole.  The subdivision of a CJK block
depends on the bundled dictionary of jieba (an external artifact); no
theorem below depends on how a CJK block is subdivided, and on
Latin-and-whitespace text this model is exact. -/
def cut_block (b : List Char) : List String :=
  [String.mk b]

/-- Tokens jieba yields for a block that does not match the han pattern:
the block is split by the skip pattern, a carriage-return-newline pair is
yielded as one token, every other character (in particular every single
whitespace character) is yielded as its own token.  This is the branch of
the jieba cut routine that makes whitespace survive tokenization as
standalone tokens. -/
def skipTokens : List Char → List String
  | [] => []
  | '\x0d' :: '\n' :: rest => String.mk [ '\x0d', '\n' ] :: skipTokens rest
  | c :: cs => String.mk [c] :: skipTokens cs

/-- jieba.lcut with default options, as called on line 50 of app.py:
partition the text into maximal han / non-han blocks, segment han blocks,
and yield the characters of non-han blocks (whitespace included) as
individual tokens. -/
def jieba_lcut (s : String) : List String :=
  ((charRuns isJiebaHan s.data).map
    (fun r => if r.1 then cut_block r.2 else skipTokens r.2)).flatten

/-- Lines 44 to 52 of app.py, clean_text: strip characters outside the
allow-list, lowercase, segment with jieba, drop tokens that are in the
stopword list, and join the survivors with single spaces.  The source
reads the stopword file on every call and strips each line; the stripped
line list is the stopwords parameter here. -/
def clean_text (stopwords : List String) (text : String) : String :=
  let stripped := stripNonText text
  let lowered := pyLower stripped
  let words := jieba_lcut lowered
  let filtered_words := words.filter (fun w => !(stopwords.contains w))
  String.intercalate " " filtered_words

/-! ## Vectorizer and similarity engine -/

/-- Modelled from the spec: the fitted TF-IDF artifact
(model/tfidf_model.pkl) is built offline and its build script is not part
of this repository; section 4.2 of the spec fixes its behaviour as a fixed
ordered vocabulary with learned inverse-document-frequency weights. -/
structure TfidfModel where
  vocab : List String
  idf : List ℚ
deriving DecidableEq

/-- Tokens of a normalized, space-joined text: the maximal runs of
non-space characters.  This is the token stream the vectorizer sees for a
text produced by clean_text, whose only separators are spaces. -/
def spaceTokens (s : String) : List String :=
  ((charRuns (fun c => !(c == ' ')) s.data).filter (fun r => r.1)).map
    (fun r => String.mk r.2)

/-- Modelled from the spec, section 4.2: transform maps a normalized,
space-joined text to the vector of term-frequency times idf weights over
the fixed vocabulary; terms absent from the vocabulary contribute zero and
an input with no tokens yields the zero vector. -/
def TfidfModel.transform (m : TfidfModel) (text : String) : List ℚ :=
  let toks := spaceTokens text
  (m.vocab.zip m.idf).map (fun p => ((toks.count p.1 : ℕ) : ℚ) * p.2)

/-- Dot product of two dense vectors; trailing entries of the longer vector
are ignored (all vectors produced by one TfidfModel share the vocabulary
length, so the case never arises in the program). -/
def dotProd : List ℚ → List ℚ → ℚ
  | x :: xs, y :: ys => x * y + dotProd xs ys
  | _, _ => 0

/-- Squared L2 norm of a vector. -/
def normSq (v : List ℚ) : ℚ :=
  dotProd v v

/-- sklearn.metrics.pairwise.cosine_similarity for one query row against
one corpus row, as called on lines 59 and 73 of app.py.  The library
L2-normalizes each row, replacing a zero norm by one so that a zero-norm
vector stays the zero vector and its similarity against anything is 0
rather than NaN; the dot product of the normalized rows is returned.  The
vectors this program feeds in are rows produced by the fitted vectorizer,
which are already L2-normalized or zero, so after the zero-norm guard the
division of the library is a no-op and the value is the guarded dot
product; for zero-norm inputs the model is exact, and every concrete
instance below evaluates it only at zero-norm queries. -/
def cosine_similarity (u v : List ℚ) : ℚ :=
  if normSq u = 0 ∨ normSq v = 0 then 0 else dotProd u v

/-! ## Catalog, result rows and pandas operations -/

/-- One row of the course-teacher feature table
(data/course_teacher_tfidf.pkl): the columns app.py reads are
course_name, teacher_name, cleaned_review and avg_rating; avg_rating may
be missing (NaN), which line 77 fills with 0. -/
structure CatalogRow where
  course_name : String
  teacher_name : String
  cleaned_review : String
  avg_rating : Option ℚ
deriving DecidableEq

/-- One row of the frame returned by recommend_courses: line 82 of app.py
projects the scored frame to exactly these three columns. -/
structure RecRow where
  course_name : String
  teacher_name : String
  composite_score : ℚ
deriving DecidableEq

/-- Column list of the frame returned by recommend_courses, transcribed
from the projection on line 82 of app.py. -/
def recommend_courses_columns : List String :=
  ["course_name", "teacher_name", "composite_score"]

/-- One row of the frame returned by handle_cold_start: line 60 of app.py
copies the course_name and teacher_name columns and lines 61 to 66 assign
the similarity, avg_rating and composite_score columns; no projection
removes them before the return on line 67. -/
structure ColdStartRow where
  course_name : String
  teacher_name : String
  similarity : ℚ
  avg_rating : ℚ
  composite_score : ℚ
deriving DecidableEq

/-- Column list of the frame returned by handle_cold_start, in pandas
insertion order: the two columns copied on line 60 followed by the three
columns assigned on lines 61 to 66 of app.py. -/
def handle_cold_start_columns : List String :=
  ["course_name", "teacher_name", "similarity", "avg_rating",
    "composite_score"]

/-- The uploaded cold-start frame, column-oriented so that the in-place
column assignments of lines 56 and 57 of app.py are observable: before the
call the frame has course_name and teacher_name columns, possibly a rating
column, and no substitute-text columns; handle_cold_start assigns the
columns named with the CJK word for substitute text (subst_text stands for
that column and cleaned_subst for its cleaned variant). -/
structure NewCoursesFrame where
  course_name : List String
  teacher_name : List String
  avg_rating : Option (List ℚ)
  subst_text : Option (List String)
  cleaned_subst : Option (List String)
deriving DecidableEq

/-- pandas DataFrame.sort_values(by=key, ascending=False) as used on
line 82 of app.py: pandas nargsort computes an ascending argsort and then
reverses the whole indexer.  The default numpy quicksort is an introsort
that runs plain insertion sort, which is stable, below its small-partition
cutoff of sixteen elements; every catalog considered in the theorems below
is far below that cutoff, so the ascending argsort is embedded as a stable
insertion sort.  Descending order is therefore the reverse of a stable
ascending sort, which puts tied rows in reversed original order. -/
def pandas_sort_desc {α : Type} (key : α → ℚ) (l : List α) : List α :=
  (l.insertionSort (fun a b => key a ≤ key b)).reverse

/-- pandas DataFrame.head(n) as used on line 82 of app.py: for n ≥ 0 the
first n rows (all rows when fewer are available); for n < 0 all rows except
the last abs n, that is Python slicing up to -abs n. -/
def pandas_head {α : Type} (n : ℤ) (l : List α) : List α :=
  if 0 ≤ n then l.take n.toNat else l.take (l.length - (-n).toNat)

/-! ## The three core functions of app.py -/

/-- Lines 69 to 82 of app.py, recommend_courses: clean the query, vectorize
it with the loaded TfidfModel, score cosine similarity against every row of
the corpus matrix, copy the catalog frame, fill missing ratings with 0,
blend the composite score, sort descending by it, truncate to top_n and
project to the three output columns.  The stopwords parameter is the file
the global clean_text reads; the source copies the catalog on line 75, so
the catalog argument is never written to.  pandas would raise if the score
array length differed from the catalog length; the model is only ever used
with a corpus matrix aligned to the catalog, as load_resources builds it
(the alignment invariant of the data model), and theorems that need the
alignment carry it as a hypothesis. -/
def recommend_courses (stopwords : List String) (keywords : String)
    (course_teacher_tfidf : List CatalogRow) (tfidf : TfidfModel)
    (tfidf_matrix : List (List ℚ)) (top_n : ℤ)
    (similarity_weight rating_weight : ℚ) : List RecRow :=
  let cleaned_keywords := clean_text stopwords keywords
  let keywords_tfidf := tfidf.transform cleaned_keywords
  let similarity_scores :=
    tfidf_matrix.map (fun row => cosine_similarity keywords_tfidf row)
  let scored := List.zipWith
    (fun (r : CatalogRow) (s : ℚ) =>
      RecRow.mk r.course_name r.teacher_name
        (similarity_weight * s + rating_weight * (r.avg_rating.getD 0)))
    course_teacher_tfidf similarity_scores
  pandas_head top_n
    (pandas_sort_desc (fun r => r.composite_score) scored)

/-- Lines 54 to 67 of app.py, handle_cold_start: assign the substitute-text
column course_name plus a space plus teacher_name into the caller frame
(line 56, an in-place pandas column assignment), assign its cleaned variant
(line 57), vectorize the cleaned column through the passed TfidfModel,
score cosine similarity of the query vector against each new row, then
build the result frame from a copy of the two name columns with similarity,
a constant 0 avg_rating, and the blended composite score.  The function
returns the result rows together with the final state of the caller frame,
which now carries the two assigned columns. -/
def handle_cold_start (new_course_teacher_df : NewCoursesFrame)
    (tfidf : TfidfModel) (ct : String → String)
    (keywords_tfidf : List ℚ) (similarity_weight rating_weight : ℚ) :
    List ColdStartRow × NewCoursesFrame :=
  let subst := List.zipWith (fun c t => c ++ " " ++ t)
    new_course_teacher_df.course_name new_course_teacher_df.teacher_name
  let cleaned := subst.map ct
  let new_tfidf_matrix := cleaned.map tfidf.transform
  let similarity_scores :=
    new_tfidf_matrix.map (fun row => cosine_similarity keywords_tfidf row)
  let results := List.zipWith
    (fun (p : String × String) (s : ℚ) =>
      ColdStartRow.mk p.1 p.2 s 0 (similarity_weight * s + rating_weight * 0))
    (new_course_teacher_df.course_name.zip new_course_teacher_df.teacher_name)
    similarity_scores
  (results,
    { new_course_teacher_df with
        subst_text := some subst, cleaned_subst := some cleaned })

/-- The two objects load_resources reads from disk before any scoring
call: the fitted vectorizer and the course-teacher table. -/
structure Resources where
  tfidf : TfidfModel
  course_teacher_tfidf : List CatalogRow
deriving DecidableEq

/-- Lines 17 to 32 of app.py, load_resources: the body tries to load the
vectorizer and the feature table and to build the corpus matrix by
transforming the cleaned_review column; any exception raised by the loads
is caught by the bare except branch, reported to the UI, and converted into
the sentinel triple (None, None, None).  The parameter is the outcome the
environment delivers for the two loads; the outer Except is the channel an
uncaught exception would escape through, so the embedding shows that the
function never lets one escape: every outcome maps to Except.ok. -/
def load_resources (attempt : Except String Resources) :
    Except String
      (Option TfidfModel × Option (List CatalogRow) × Option (List (List ℚ))) :=
  match attempt with
  | Except.ok r =>
      Except.ok (some r.tfidf, some r.course_teacher_tfidf,
        some (r.course_teacher_tfidf.map
          (fun row => r.tfidf.transform row.cleaned_review)))
  | Except.error _ => Except.ok (none, none, none)

/-- Lines 144 and 158 to 160 of app.py: main proceeds to the input and
recommendation steps only when no component of the loaded triple is None;
on the sentinel triple it reports an initialization error and returns
before any scoring. -/
def main_proceeds_to_scoring
    (r : Option TfidfModel × Option (List CatalogRow) ×
      Option (List (List ℚ))) : Bool :=
  r.1.isSome && r.2.1.isSome && r.2.2.isSome

/-! ## General lemmas about the embedded pandas operations -/

/-- Unfolding equation for recommend_courses: the function is the pandas
head of the pandas descending sort of the catalog rows zipped with their
similarity scores. -/
theorem recommend_courses_eq (sw : List String) (kw : String)
    (catalog : List CatalogRow) (m : TfidfModel)
    (matrix : List (List ℚ)) (top_n : ℤ) (ws wr : ℚ) :
    recommend_courses sw kw catalog m matrix top_n ws wr =
      pandas_head top_n
        (pandas_sort_desc (fun r => r.composite_score)
          (List.zipWith
            (fun (r : CatalogRow) (s : ℚ) =>
              RecRow.mk r.course_name r.teacher_name
                (ws * s + wr * (r.avg_rating.getD 0)))
            catalog
            (matrix.map
              (fun row =>
                cosine_similarity (m.transform (clean_text sw kw)) row)))) :=
  rfl

/-- The descending pandas sort does not change the number of rows. -/
theorem length_pandas_sort_desc {α : Type} (key : α → ℚ) (l : List α) :
    (pandas_sort_desc key l).length = l.length := by
  unfold pandas_sort_desc
  rw [List.length_reverse]
  exact (List.perm_insertionSort _ l).length_eq

/-- pandas head with a nonnegative row count keeps min(n, length) rows. -/
theorem length_pandas_head_of_nonneg {α : Type} (n : ℤ) (l : List α)
    (h : 0 ≤ n) : (pandas_head n l).length = min n.toNat l.length := by
  unfold pandas_head
  rw [if_pos h, List.length_take]

/-- pandas head always returns a sublist of its input. -/
theorem pandas_head_sublist {α : Type} (n : ℤ) (l : List α) :
    (pandas_head n l).Sublist l := by
  unfold pandas_head
  split
  · exact List.take_sublist _ _
  · exact List.take_sublist _ _

/-- Mapping a row function commutes with pandas head. -/
theorem map_pandas_head {α β : Type} (f : α → β) (n : ℤ) (l : List α) :
    (pandas_head n l).map f = pandas_head n (l.map f) := by
  unfold pandas_head
  split <;> simp [List.map_take]

/-- Membership is preserved by the descending pandas sort. -/
theorem mem_pandas_sort_desc {α : Type} (key : α → ℚ) (l : List α)
    (x : α) : x ∈ pandas_sort_desc key l ↔ x ∈ l := by
  unfold pandas_sort_desc
  rw [List.mem_reverse]
  exact (List.perm_insertionSort _ l).mem_iff

/-- The descending pandas sort leaves the key non-increasing along the
output. -/
theorem pairwise_pandas_sort_desc {α : Type} (key : α → ℚ) (l : List α) :
    List.Pairwise (fun a b => key b ≤ key a) (pandas_sort_desc key l) := by
  unfold pandas_sort_desc
  rw [List.pairwise_reverse]
  exact @List.sorted_insertionSort α (fun a b => key a ≤ key b)
    (fun a b => inferInstanceAs (Decidable (key a ≤ key b)))
    ⟨fun a b => le_total (key a) (key b)⟩
    ⟨fun a b c hab hbc => le_trans hab hbc⟩ l

/-- A relation that holds everywhere holds pairwise on every list. -/
theorem pairwise_of_forall_rel {α : Type} (R : α → α → Prop)
    (h : ∀ a b, R a b) : ∀ l : List α, List.Pairwise R l
  | [] => List.Pairwise.nil
  | x :: xs =>
    List.Pairwise.cons (fun y _ => h x y) (pairwise_of_forall_rel R h xs)

/-- Every element of a zipWith comes from one element of each input list,
combined with the function. -/
theorem mem_of_mem_zipWith {α β γ : Type} (f : α → β → γ) :
    ∀ (l₁ : List α) (l₂ : List β) (x : γ), x ∈ List.zipWith f l₁ l₂ →
      ∃ a ∈ l₁, ∃ b ∈ l₂, x = f a b
  | [], _, x, hx => by simp at hx
  | _ :: _, [], x, hx => by simp at hx
  | a :: as, b :: bs, x, hx => by
    rw [List.zipWith_cons_cons] at hx
    rcases List.mem_cons.mp hx with h | h
    · exact ⟨a, List.mem_cons_self a as, b, List.mem_cons_self b bs, h⟩
    · obtain ⟨a1, ha1, b1, hb1, hx1⟩ := mem_of_mem_zipWith f as bs x h
      exact ⟨a1, List.mem_cons_of_mem a ha1, b1,
        List.mem_cons_of_mem b hb1, hx1⟩

/-- A vector all of whose entries are zero has zero squared norm. -/
theorem normSq_eq_zero_of_forall :
    ∀ (v : List ℚ), (∀ x ∈ v, x = 0) → normSq v = 0
  | [], _ => rfl
  | x :: xs, h => by
    have h0 : x = 0 := h x (List.mem_cons_self x xs)
    have ih := normSq_eq_zero_of_forall xs
      (fun y hy => h y (List.mem_cons_of_mem x hy))
    unfold normSq at ih ⊢
    rw [show dotProd (x :: xs) (x :: xs) = x * x + dotProd xs xs from rfl,
      h0, ih]
    ring

/-! ## Claim C1: composite score formula and range -/

/-- Counterexample to claim C1: the code never normalizes the rating.
A catalog row with average rating 5 and zero similarity (the query
vectorizes to the zero vector because no query token is in the
vocabulary) gets composite score 0.7 * 0 + 0.3 * 5 = 3/2, outside the
claimed default range [0, 1]. -/
theorem C1_counterexample :
    recommend_courses [] "q"
        [CatalogRow.mk "Calculus" "Lee" "alpha" (some 5)]
        (TfidfModel.mk ["alpha"] [1]) [[1]] 5 (7 / 10) (3 / 10)
      = [RecRow.mk "Calculus" "Lee" (3 / 2)] ∧
    ¬ ((3 / 2 : ℚ) ≤ 1) := by
  with_unfolding_all decide

/-- Claim C1 as amended: every returned row carries composite score
w_sim * similarity + w_rating * raw_rating, where the rating is used
unnormalized (missing ratings filled with 0); under nonnegative weights,
ratings in [0, 5] and similarities in [0, 1] the score is bounded by
[0, w_sim + 5 * w_rating] (2.2 with the default weights), not [0, 1]. -/
theorem C1_amended (sw : List String) (kw : String)
    (catalog : List CatalogRow) (m : TfidfModel)
    (matrix : List (List ℚ)) (top_n : ℤ) (ws wr : ℚ)
    (hws : 0 ≤ ws) (hwr : 0 ≤ wr)
    (hrate : ∀ r ∈ catalog,
      0 ≤ r.avg_rating.getD 0 ∧ r.avg_rating.getD 0 ≤ 5)
    (hsim : ∀ v ∈ matrix,
      0 ≤ cosine_similarity (m.transform (clean_text sw kw)) v ∧
        cosine_similarity (m.transform (clean_text sw kw)) v ≤ 1) :
    ∀ row ∈ recommend_courses sw kw catalog m matrix top_n ws wr,
      (∃ r ∈ catalog, ∃ v ∈ matrix,
        row = RecRow.mk r.course_name r.teacher_name
          (ws * cosine_similarity (m.transform (clean_text sw kw)) v +
            wr * r.avg_rating.getD 0)) ∧
      0 ≤ row.composite_score ∧ row.composite_score ≤ ws * 1 + wr * 5 := by
  intro row hrow
  rw [recommend_courses_eq] at hrow
  have hmem := (mem_pandas_sort_desc _ _ _).mp
    ((pandas_head_sublist _ _).subset hrow)
  obtain ⟨r, hr, s, hs, hrs⟩ := mem_of_mem_zipWith _ _ _ _ hmem
  obtain ⟨v, hv, hsv⟩ := List.mem_map.mp hs
  subst hrs
  rw [← hsv]
  refine ⟨⟨r, hr, v, hv, rfl⟩, ?_, ?_⟩
  · exact add_nonneg (mul_nonneg hws (hsim v hv).1)
      (mul_nonneg hwr (hrate r hr).1)
  · exact add_le_add (mul_le_mul_of_nonneg_left (hsim v hv).2 hws)
      (mul_le_mul_of_nonneg_left (hrate r hr).2 hwr)

/-- Witness instantiating C1_amended at a concrete catalog, query and
weights, discharging every hypothesis by evaluation. -/
theorem C1_amended_witness :
    ((0 : ℚ) ≤ 7 / 10) ∧ ((0 : ℚ) ≤ 3 / 10) ∧
    (∀ r ∈ [CatalogRow.mk "Calculus" "Lee" "alpha" (some 5)],
      0 ≤ r.avg_rating.getD 0 ∧ r.avg_rating.getD 0 ≤ 5) ∧
    (∀ v ∈ ([[1]] : List (List ℚ)),
      0 ≤ cosine_similarity
          ((TfidfModel.mk ["alpha"] [1]).transform (clean_text [] "q")) v ∧
        cosine_similarity
          ((TfidfModel.mk ["alpha"] [1]).transform (clean_text [] "q")) v
          ≤ 1) ∧
    (∀ row ∈ recommend_courses [] "q"
        [CatalogRow.mk "Calculus" "Lee" "alpha" (some 5)]
        (TfidfModel.mk ["alpha"] [1]) [[1]] 5 (7 / 10) (3 / 10),
      (∃ r ∈ [CatalogRow.mk "Calculus" "Lee" "alpha" (some 5)],
        ∃ v ∈ ([[1]] : List (List ℚ)),
        row = RecRow.mk r.course_name r.teacher_name
          (7 / 10 * cosine_similarity
              ((TfidfModel.mk ["alpha"] [1]).transform (clean_text [] "q"))
              v +
            3 / 10 * r.avg_rating.getD 0)) ∧
      0 ≤ row.composite_score ∧
        row.composite_score ≤ 7 / 10 * 1 + 3 / 10 * 5) :=
  ⟨by with_unfolding_all decide, by with_unfolding_all decide, by with_unfolding_all decide, by with_unfolding_all decide,
    C1_amended [] "q" [CatalogRow.mk "Calculus" "Lee" "alpha" (some 5)]
      (TfidfModel.mk ["alpha"] [1]) [[1]] 5 (7 / 10) (3 / 10)
      (by with_unfolding_all decide) (by with_unfolding_all decide) (by with_unfolding_all decide) (by with_unfolding_all decide)⟩

/-! ## Claim C3: ranking length and descending order -/

/-- Claim C3: with a corpus matrix aligned to the catalog (the data-model
invariant load_resources establishes) and a positive top_n, the ranking
has length exactly min(top_n, number of catalog rows) and its composite
scores are non-increasing along the output. -/
theorem C3_ranking_length_sorted (sw : List String) (kw : String)
    (catalog : List CatalogRow) (m : TfidfModel)
    (matrix : List (List ℚ)) (top_n : ℤ) (ws wr : ℚ)
    (htop : 0 < top_n) (hlen : matrix.length = catalog.length) :
    (recommend_courses sw kw catalog m matrix top_n ws wr).length
      = min top_n.toNat catalog.length ∧
    List.Sorted (fun a b : ℚ => b ≤ a)
      ((recommend_courses sw kw catalog m matrix top_n ws wr).map
        RecRow.composite_score) := by
  rw [recommend_courses_eq]
  constructor
  · rw [length_pandas_head_of_nonneg _ _ (le_of_lt htop),
      length_pandas_sort_desc, List.length_zipWith, List.length_map,
      hlen, min_self]
  · exact List.pairwise_map.mpr
      (List.Pairwise.sublist (pandas_head_sublist _ _)
        (pairwise_pandas_sort_desc _ _))

/-- Witness instantiating C3_ranking_length_sorted: a two-row catalog with
top_n = 5 returns both rows, sorted. -/
theorem C3_witness :
    ((0 : ℤ) < 5) ∧
    (([[], []] : List (List ℚ)).length
      = [CatalogRow.mk "A" "T1" "x" (some 4),
          CatalogRow.mk "B" "T2" "y" (some 4)].length) ∧
    ((recommend_courses [] "q"
        [CatalogRow.mk "A" "T1" "x" (some 4),
          CatalogRow.mk "B" "T2" "y" (some 4)]
        (TfidfModel.mk [] []) [[], []] 5 (7 / 10) (3 / 10)).length
      = min (5 : ℤ).toNat
          [CatalogRow.mk "A" "T1" "x" (some 4),
            CatalogRow.mk "B" "T2" "y" (some 4)].length ∧
    List.Sorted (fun a b : ℚ => b ≤ a)
      ((recommend_courses [] "q"
          [CatalogRow.mk "A" "T1" "x" (some 4),
            CatalogRow.mk "B" "T2" "y" (some 4)]
          (TfidfModel.mk [] []) [[], []] 5 (7 / 10) (3 / 10)).map
        RecRow.composite_score)) :=
  ⟨by with_unfolding_all decide, rfl,
    C3_ranking_length_sorted [] "q"
      [CatalogRow.mk "A" "T1" "x" (some 4),
        CatalogRow.mk "B" "T2" "y" (some 4)]
      (TfidfModel.mk [] []) [[], []] 5 (7 / 10) (3 / 10)
      (by with_unfolding_all decide) rfl⟩

/-! ## Claim C4: tie order under the descending sort -/

/-- Counterexample to claim C4: two rows with equal composite scores
(zero similarity for both because the vocabulary is empty, equal ratings)
come back in reversed catalog order, because pandas produces descending
order by reversing a stable ascending sort. -/
theorem C4_counterexample :
    (recommend_courses [] "q"
        [CatalogRow.mk "A" "T1" "x" (some 4),
          CatalogRow.mk "B" "T2" "y" (some 4)]
        (TfidfModel.mk [] []) [[], []] 5 (7 / 10) (3 / 10)).map
        RecRow.course_name
      = ["B", "A"] ∧
    (["B", "A"] : List String) ≠ ["A", "B"] := by
  with_unfolding_all decide

/-- Helper for C4: when the query vector has zero norm and every
catalog rating is the same constant, the scored rows are the catalog rows
with one constant composite score. -/
theorem zipWith_const_score (ws wr c : ℚ) (q : List ℚ)
    (hq : normSq q = 0) :
    ∀ (l : List CatalogRow) (mat : List (List ℚ)),
      mat.length = l.length → (∀ r ∈ l, r.avg_rating.getD 0 = c) →
      List.zipWith
          (fun (r : CatalogRow) (s : ℚ) =>
            RecRow.mk r.course_name r.teacher_name
              (ws * s + wr * (r.avg_rating.getD 0)))
          l (mat.map (fun row => cosine_similarity q row))
        = l.map
            (fun r =>
              RecRow.mk r.course_name r.teacher_name (ws * 0 + wr * c)) := by
  intro l
  induction l with
  | nil => intro mat _ _; simp
  | cons r rs ih =>
    intro mat hlen hr
    cases mat with
    | nil => simp at hlen
    | cons v vs =>
      simp only [List.map_cons, List.zipWith_cons_cons, List.cons.injEq]
      refine ⟨?_, ?_⟩
      · have hc : cosine_similarity q v = 0 := by
          unfold cosine_similarity
          exact if_pos (Or.inl hq)
        rw [hc, hr r (List.mem_cons_self r rs)]
      · exact ih vs (by simpa using hlen)
          (fun x hx => hr x (List.mem_cons_of_mem r hx))

/-- Claim C4 as amended: the sort is not stable in the claimed direction.
When all composite scores are equal (zero-norm query vector, one shared
rating value), the ranking is the pandas head of the catalog in reversed
original order: descending sort reverses a stable ascending sort, so tied
rows appear in reversed catalog order, not original order. -/
theorem C4_amended (sw : List String) (kw : String)
    (catalog : List CatalogRow) (m : TfidfModel)
    (matrix : List (List ℚ)) (top_n : ℤ) (ws wr c : ℚ)
    (hq : normSq (m.transform (clean_text sw kw)) = 0)
    (hr : ∀ r ∈ catalog, r.avg_rating.getD 0 = c)
    (hlen : matrix.length = catalog.length) :
    (recommend_courses sw kw catalog m matrix top_n ws wr).map
        RecRow.course_name
      = pandas_head top_n ((catalog.map CatalogRow.course_name).reverse) := by
  rw [recommend_courses_eq,
    zipWith_const_score ws wr c _ hq catalog matrix hlen hr]
  unfold pandas_sort_desc
  have hsorted : List.Sorted
      (fun a b : RecRow => a.composite_score ≤ b.composite_score)
      (catalog.map
        (fun r =>
          RecRow.mk r.course_name r.teacher_name (ws * 0 + wr * c))) := by
    rw [List.Sorted, List.pairwise_map]
    exact pairwise_of_forall_rel _ (fun a b => le_refl _) _
  rw [List.Sorted.insertionSort_eq hsorted, map_pandas_head,
    List.map_reverse, List.map_map]
  rfl

/-- Witness instantiating C4_amended at the two-row tied catalog. -/
theorem C4_amended_witness :
    normSq ((TfidfModel.mk [] []).transform (clean_text [] "q")) = 0 ∧
    (∀ r ∈ [CatalogRow.mk "A" "T1" "x" (some 4),
        CatalogRow.mk "B" "T2" "y" (some 4)],
      r.avg_rating.getD 0 = 4) ∧
    (recommend_courses [] "q"
        [CatalogRow.mk "A" "T1" "x" (some 4),
          CatalogRow.mk "B" "T2" "y" (some 4)]
        (TfidfModel.mk [] []) [[], []] 5 (7 / 10) (3 / 10)).map
        RecRow.course_name
      = pandas_head 5
          (([CatalogRow.mk "A" "T1" "x" (some 4),
              CatalogRow.mk "B" "T2" "y" (some 4)].map
            CatalogRow.course_name).reverse) :=
  ⟨by with_unfolding_all decide, by with_unfolding_all decide,
    C4_amended [] "q"
      [CatalogRow.mk "A" "T1" "x" (some 4),
        CatalogRow.mk "B" "T2" "y" (some 4)]
      (TfidfModel.mk [] []) [[], []] 5 (7 / 10) (3 / 10) 4
      (by with_unfolding_all decide) (by with_unfolding_all decide) rfl⟩

/-! ## Claim C2: the cold-start scoring path -/

/-- Helper for C2: the cold-start result rows, fused into one map over the
zipped name columns. -/
theorem cold_rows_eq (m : TfidfModel) (ct : String → String) (q : List ℚ)
    (ws wr : ℚ) :
    ∀ (cs ts : List String),
      List.zipWith
          (fun (p : String × String) (s : ℚ) =>
            ColdStartRow.mk p.1 p.2 s 0 (ws * s + wr * 0))
          (cs.zip ts)
          ((((List.zipWith (fun c t => c ++ " " ++ t) cs ts).map ct).map
            m.transform).map (fun row => cosine_similarity q row))
        = (cs.zip ts).map
            (fun p =>
              ColdStartRow.mk p.1 p.2
                (cosine_similarity q (m.transform (ct (p.1 ++ " " ++ p.2))))
                0
                (ws * cosine_similarity q
                  (m.transform (ct (p.1 ++ " " ++ p.2))))) := by
  intro cs
  induction cs with
  | nil => intro ts; simp
  | cons c cs ih =>
    intro ts
    cases ts with
    | nil => simp
    | cons t ts =>
      simp only [List.zip_cons_cons, List.zipWith_cons_cons, List.map_cons,
        List.cons.injEq]
      exact ⟨by rw [mul_zero, add_zero], ih ts⟩

/-- Claim C2: handle_cold_start synthesizes the substitute text
course_name plus a space plus teacher_name for every input row, cleans it
with the passed normalization function and vectorizes it with the passed
fitted model (one shared model for all rows, the one the caller loaded for
the main corpus); every result row carries avg_rating 0 and composite
score w_sim times its similarity, with no rating contribution; and the
result is unchanged under any rating column on the input frame. -/
theorem C2_cold_start (frame : NewCoursesFrame) (m : TfidfModel)
    (ct : String → String) (q : List ℚ) (ws wr : ℚ) :
    (handle_cold_start frame m ct q ws wr).1
      = (frame.course_name.zip frame.teacher_name).map
          (fun p =>
            ColdStartRow.mk p.1 p.2
              (cosine_similarity q (m.transform (ct (p.1 ++ " " ++ p.2))))
              0
              (ws * cosine_similarity q
                (m.transform (ct (p.1 ++ " " ++ p.2))))) ∧
    (∀ r' : Option (List ℚ),
      (handle_cold_start { frame with avg_rating := r' } m ct q ws wr).1
        = (handle_cold_start frame m ct q ws wr).1) :=
  ⟨cold_rows_eq m ct q ws wr frame.course_name frame.teacher_name,
    fun _ => rfl⟩

/-! ## Claim C5: mutation of caller data -/

/-- Counterexample to claim C5: handle_cold_start writes the substitute
text columns into the caller frame in place (lines 56 and 57 of app.py),
so the frame after the call differs from the frame passed in. -/
theorem C5_counterexample :
    (handle_cold_start
        (NewCoursesFrame.mk ["N1"] ["P1"] (some [4]) none none)
        (TfidfModel.mk ["w"] [1]) (clean_text []) [0] (7 / 10) (3 / 10)).2
      ≠ NewCoursesFrame.mk ["N1"] ["P1"] (some [4]) none none := by
  with_unfolding_all decide

/-- Claim C5 as amended: the main path copies the catalog before scoring
(line 75 of app.py), so the caller catalog is untouched; handle_cold_start
leaves the existing columns of its input frame (names and any rating
column) unchanged but does mutate the frame by adding the substitute-text
column and its cleaned variant. -/
theorem C5_amended (frame : NewCoursesFrame) (m : TfidfModel)
    (ct : String → String) (q : List ℚ) (ws wr : ℚ) :
    ((handle_cold_start frame m ct q ws wr).2.course_name
        = frame.course_name ∧
      (handle_cold_start frame m ct q ws wr).2.teacher_name
        = frame.teacher_name ∧
      (handle_cold_start frame m ct q ws wr).2.avg_rating
        = frame.avg_rating) ∧
    (handle_cold_start frame m ct q ws wr).2.subst_text
        = some (List.zipWith (fun c t => c ++ " " ++ t)
            frame.course_name frame.teacher_name) ∧
    (handle_cold_start frame m ct q ws wr).2.cleaned_subst
        = some ((List.zipWith (fun c t => c ++ " " ++ t)
            frame.course_name frame.teacher_name).map ct) :=
  ⟨⟨rfl, rfl, rfl⟩, rfl, rfl⟩

/-! ## Claim C6: resource-load failure handling -/

/-- Counterexample to claim C6: a load failure is not raised to the
caller; load_resources catches it and returns the sentinel triple, so the
call resolves to a normal return, not to the propagated error. -/
theorem C6_counterexample :
    load_resources (Except.error "load failed")
        = Except.ok (none, none, none) ∧
    load_resources (Except.error "load failed")
        ≠ Except.error "load failed" :=
  ⟨rfl, by simp [load_resources]⟩

/-- Claim C6 as amended: every load failure is caught inside
load_resources (the bare except branch on line 30 of app.py) and converted
into the sentinel triple (None, None, None) after a UI error message; no
exception reaches the caller.  The sentinel fails the readiness check of
main, which therefore refuses to score, and it is distinguishable from
every successful load, including a load of an empty catalog. -/
theorem C6_amended :
    (∀ e : String,
      load_resources (Except.error e) = Except.ok (none, none, none)) ∧
    main_proceeds_to_scoring (none, none, none) = false ∧
    (∀ r : Resources,
      load_resources (Except.ok r)
          = Except.ok (some r.tfidf, some r.course_teacher_tfidf,
              some (r.course_teacher_tfidf.map
                (fun row => r.tfidf.transform row.cleaned_review))) ∧
      ∀ e : String,
        load_resources (Except.ok r) ≠ load_resources (Except.error e)) :=
  ⟨fun _ => rfl, rfl,
    fun r => ⟨rfl, fun e => by simp [load_resources]⟩⟩

/-! ## Claim C7: configuration validation -/

/-- Counterexample to claim C7: recommend_courses performs no validation
of top_n.  With top_n = -1 it still scores and returns a nonempty ranked
result (pandas head keeps all rows but the last one), and with top_n = 0
it returns an empty frame; neither call is rejected. -/
theorem C7_counterexample :
    recommend_courses [] "q"
        [CatalogRow.mk "A" "T1" "x" (some 4),
          CatalogRow.mk "B" "T2" "y" (some 4)]
        (TfidfModel.mk [] []) [[], []] (-1) (7 / 10) (3 / 10)
      = [RecRow.mk "B" "T2" (6 / 5)] ∧
    recommend_courses [] "q"
        [CatalogRow.mk "Calculus" "Lee" "alpha" (some 5)]
        (TfidfModel.mk ["alpha"] [1]) [[1]] 0 (7 / 10) (3 / 10)
      = [] := by
  with_unfolding_all decide

/-- Claim C7 as amended: no configuration is rejected and no error is
signalled; a nonpositive top_n flows into pandas head, so top_n = 0
yields an empty ranked frame and a negative top_n yields all rows except
the last abs(top_n), in both cases an ordinary result. -/
theorem C7_amended (sw : List String) (kw : String)
    (catalog : List CatalogRow) (m : TfidfModel)
    (matrix : List (List ℚ)) (top_n : ℤ) (ws wr : ℚ)
    (hlen : matrix.length = catalog.length) (_h : top_n ≤ 0) :
    (top_n = 0 →
      recommend_courses sw kw catalog m matrix top_n ws wr = []) ∧
    (top_n < 0 →
      (recommend_courses sw kw catalog m matrix top_n ws wr).length
        = catalog.length - (-top_n).toNat) := by
  constructor
  · intro h0
    rw [recommend_courses_eq, h0]
    rfl
  · intro hneg
    rw [recommend_courses_eq]
    unfold pandas_head
    rw [if_neg (by omega : ¬ (0 : ℤ) ≤ top_n)]
    rw [List.length_take, length_pandas_sort_desc, List.length_zipWith,
      List.length_map, hlen, min_self]
    exact min_eq_left (Nat.sub_le _ _)

/-- Witness instantiating C7_amended at top_n = -1 on a two-row catalog:
one row is returned, no error. -/
theorem C7_witness :
    (([[], []] : List (List ℚ)).length
        = [CatalogRow.mk "A" "T1" "x" (some 4),
            CatalogRow.mk "B" "T2" "y" (some 4)].length) ∧
    ((-1 : ℤ) ≤ 0) ∧
    ((-1 : ℤ) < 0 →
      (recommend_courses [] "q"
          [CatalogRow.mk "A" "T1" "x" (some 4),
            CatalogRow.mk "B" "T2" "y" (some 4)]
          (TfidfModel.mk [] []) [[], []] (-1) (7 / 10) (3 / 10)).length
        = [CatalogRow.mk "A" "T1" "x" (some 4),
            CatalogRow.mk "B" "T2" "y" (some 4)].length
            - (-(-1 : ℤ)).toNat) :=
  ⟨rfl, by decide,
    (C7_amended [] "q"
        [CatalogRow.mk "A" "T1" "x" (some 4),
          CatalogRow.mk "B" "T2" "y" (some 4)]
        (TfidfModel.mk [] []) [[], []] (-1) (7 / 10) (3 / 10)
        rfl (by decide)).2⟩

/-! ## Claim C9: total, guarded cosine similarity -/

/-- Claim C9: cosine similarity is total and guarded; whenever either
vector has zero squared L2 norm the similarity is 0 (never an error and,
in the exact-rational embedding, never NaN), and the empty normalized
query vectorizes to the zero vector, so its similarity against every row
is 0. -/
theorem C9_zero_norm_guard :
    (∀ u v : List ℚ,
      normSq u = 0 ∨ normSq v = 0 → cosine_similarity u v = 0) ∧
    (∀ (m : TfidfModel) (v : List ℚ),
      cosine_similarity (m.transform "") v = 0) := by
  constructor
  · intro u v h
    unfold cosine_similarity
    exact if_pos h
  · intro m v
    have hz : ∀ x ∈ m.transform "", x = 0 := by
      intro x hx
      simp only [TfidfModel.transform, spaceTokens, List.mem_map] at hx
      obtain ⟨p, _, hp⟩ := hx
      simp only [show charRuns (fun c => !(c == ' ')) ("").data
          = [] from rfl] at hp
      simp only [List.filter_nil, List.map_nil, List.count_nil,
        Nat.cast_zero, zero_mul] at hp
      exact hp.symm
    unfold cosine_similarity
    exact if_pos (Or.inl (normSq_eq_zero_of_forall _ hz))

/-- Witness instantiating C9_zero_norm_guard: a zero query vector against
a concrete row, and the transform of the empty string against a row. -/
theorem C9_witness :
    normSq [ (0 : ℚ), 0 ] = 0 ∧
    cosine_similarity [ (0 : ℚ), 0 ] [1, 2] = 0 ∧
    cosine_similarity ((TfidfModel.mk ["w"] [2]).transform "") [3] = 0 :=
  ⟨by with_unfolding_all decide,
    C9_zero_norm_guard.1 _ _ (Or.inl (by with_unfolding_all decide)),
    C9_zero_norm_guard.2 _ _⟩

/-! ## Claim C10: fields exposed by the two result frames -/

/-- Counterexample to claim C10: the frame handle_cold_start returns still
carries the similarity and avg_rating columns (no projection removes them
before the return on line 67 of app.py), and the returned rows carry the
similarity values themselves. -/
theorem C10_counterexample :
    "similarity" ∈ handle_cold_start_columns ∧
    "avg_rating" ∈ handle_cold_start_columns ∧
    ((handle_cold_start
        (NewCoursesFrame.mk ["New Seminar"] ["Dr Park"] none none none)
        (TfidfModel.mk ["w"] [1]) (clean_text []) [0]
        (7 / 10) (3 / 10)).1.map ColdStartRow.similarity) = [0] := by
  with_unfolding_all decide

/-- Claim C10 as amended: the main path exposes exactly the three fields
course name, teacher name and composite score, with similarity and raw
rating internal-only; but the cold-start path returns those three plus
the similarity and avg_rating columns. -/
theorem C10_amended :
    recommend_courses_columns
        = ["course_name", "teacher_name", "composite_score"] ∧
    handle_cold_start_columns
        = ["course_name", "teacher_name", "similarity", "avg_rating",
            "composite_score"] ∧
    "similarity" ∉ recommend_courses_columns ∧
    "avg_rating" ∉ recommend_courses_columns := by
  refine ⟨rfl, rfl, ?_, ?_⟩ <;> decide

/-! ## Claim C8: idempotence of the normalization -/

/-- Counterexample to claim C8: normalization is not idempotent.  jieba
yields whitespace as standalone tokens, no stripped stopword line can
equal a space, and the final join inserts one more space between every
pair of tokens, so each pass widens the gaps: one pass over a two-word
query produces three spaces between the words, a second pass produces
seven. -/
theorem C8_counterexample :
    clean_text ["the", "a", "of"] "ab cd" = "ab   cd" ∧
    clean_text ["the", "a", "of"] (clean_text ["the", "a", "of"] "ab cd")
      ≠ clean_text ["the", "a", "of"] "ab cd" := by
  decide

/-- Every lowercase ASCII letter survives the cleaning regex. -/
theorem ascii_kept : ∀ c ∈ asciiLowercase, keptByCleanRegex c = true := by
  decide

/-- Lowercasing fixes every lowercase ASCII letter. -/
theorem ascii_toLower : ∀ c ∈ asciiLowercase, Char.toLower c = c := by
  decide

/-- Every lowercase ASCII letter matches the jieba han block pattern. -/
theorem ascii_jieba : ∀ c ∈ asciiLowercase, isJiebaHan c = true := by
  decide

/-- Joining a single token with spaces returns the token. -/
theorem intercalate_singleton (x : String) :
    String.intercalate " " [x] = x :=
  rfl

/-- Joining no tokens gives the empty string. -/
theorem intercalate_nil : String.intercalate " " [] = "" :=
  rfl

/-- Scanning characters that all satisfy the predicate of the current run
extends that run to the end of the input. -/
theorem charRunsAux_true (p : Char → Bool) :
    ∀ (cs acc : List Char), (∀ c ∈ cs, p c = true) →
      charRunsAux p cs true acc = [(true, acc.reverse ++ cs)] := by
  intro cs
  induction cs with
  | nil => intro acc _; simp [charRunsAux]
  | cons c cs ih =>
    intro acc h
    have hc : p c = true := h c (List.mem_cons_self c cs)
    simp only [charRunsAux, hc]
    rw [if_pos trivial,
      ih (c :: acc) (fun x hx => h x (List.mem_cons_of_mem c hx))]
    simp

/-- A nonempty character list on which the predicate holds everywhere is
one single run. -/
theorem charRuns_true (p : Char → Bool) (c : Char) (cs : List Char)
    (h : ∀ x ∈ c :: cs, p x = true) :
    charRuns p (c :: cs) = [(true, c :: cs)] := by
  have hc : p c = true := h c (List.mem_cons_self c cs)
  simp only [charRuns, hc]
  rw [charRunsAux_true p cs [c]
    (fun x hx => h x (List.mem_cons_of_mem c hx))]
  simp

/-- A nonempty text all of whose characters match the han pattern is
segmented as one single token. -/
theorem jieba_lcut_all_han (t : String) (hne : t.data ≠ [])
    (h : ∀ x ∈ t.data, isJiebaHan x = true) : jieba_lcut t = [t] := by
  unfold jieba_lcut
  cases ht : t.data with
  | nil => exact absurd ht hne
  | cons c cs =>
    rw [charRuns_true isJiebaHan c cs (ht ▸ h)]
    simp only [List.map_cons, List.map_nil, if_pos, cut_block,
      List.flatten_cons, List.flatten_nil, List.append_nil]
    rw [← ht]

/-- Evaluation of clean_text on a string of lowercase ASCII letters: the
whole string is one token, dropped when it is a stopword. -/
theorem clean_text_ascii (stopwords : List String) (t : String)
    (h : ∀ c ∈ t.data, c ∈ asciiLowercase) :
    clean_text stopwords t
      = if t.data = [] then ""
        else if t ∈ stopwords then "" else t := by
  have hstrip : stripNonText t = t := by
    unfold stripNonText
    rw [List.filter_eq_self.mpr (fun c hc => ascii_kept c (h c hc))]
  have hlower : pyLower t = t := by
    unfold pyLower
    rw [List.map_congr_left (fun c hc => ascii_toLower c (h c hc)),
      show (fun c : Char => c) = id from rfl, List.map_id]
  simp only [clean_text]
  rw [hstrip, hlower]
  by_cases h0 : t.data = []
  · have ht : t = "" := by
      cases t
      simp_all
    rw [if_pos h0, ht]
    rfl
  · rw [if_neg h0,
      jieba_lcut_all_han t h0 (fun x hx => ascii_jieba x (h x hx))]
    by_cases hc : t ∈ stopwords
    · simp [hc, intercalate_nil]
    · simp [hc, intercalate_singleton]

/-- Claim C8 as amended: the pipeline is idempotent on inputs whose
characters are all lowercase ASCII letters (a single token with no
whitespace); on inputs containing whitespace the space-token duplication
shown in the counterexample breaks idempotence. -/
theorem C8_idempotent_on_lowercase (stopwords : List String) (t : String)
    (h : ∀ c ∈ t.data, c ∈ asciiLowercase) :
    clean_text stopwords (clean_text stopwords t)
      = clean_text stopwords t := by
  rw [clean_text_ascii stopwords t h]
  by_cases h0 : t.data = []
  · rw [if_pos h0]
    rfl
  · rw [if_neg h0]
    by_cases hc : t ∈ stopwords
    · rw [if_pos hc]
      rfl
    · rw [if_neg hc, clean_text_ascii stopwords t h, if_neg h0, if_neg hc]

/-- Witness instantiating C8_idempotent_on_lowercase on a concrete
lowercase query word. -/
theorem C8_witness :
    (∀ c ∈ ("math" : String).data, c ∈ asciiLowercase) ∧
    clean_text ["the"] (clean_text ["the"] "math")
      = clean_text ["the"] "math" :=
  ⟨by decide,
    C8_idempotent_on_lowercase ["the"] "math" (by decide)⟩
